import Mathlib

/-
  Verification of the counter TUI (src/main.rs).

  The program is a Store / Dispatcher / View loop:
  a `Store` holding an `i32` counter, a `Dispatcher` forwarding
  `Action`s to the store, and a `View` whose `run` loop reads the
  counter, draws it, polls the terminal for input twice per
  iteration (first to map Up/Down to actions, then to detect `q`),
  and exits on `q`.

  Embedding conventions:
  * `i32` arithmetic is embedded as `ℤ` with an explicit
    two's-complement wrap at 2^32 (`wrap32`), i.e. the release-mode
    overflow behaviour of the source type.
  * The external collaborators (crossterm events, ratatui terminal)
    are embedded as an oracle `Env`: a list of draw outcomes, a list
    of poll outcomes (one entry per `event::poll` call, covering the
    paired `event::read`), and a list of clear outcomes.  An empty
    list means "no event ever arrives / I/O keeps succeeding".
  * `.unwrap()` on an `Err` is a panic, kept distinct from the `?`
    propagation path in the embedding's result types.
  * The loop is driven by explicit fuel; every observable step is
    recorded in a trace of `Obs` entries.
-/

namespace Dig3

/-- Two's-complement wrap of an integer into the `i32` range. -/
def wrap32 (z : ℤ) : ℤ := (z + 2147483648) % 4294967296 - 2147483648

/-- The `Action` enum of the source: the two transition requests. -/
inductive Action where
  | Increment
  | Decrement
deriving DecidableEq

/-- The `Store` struct: owns the single `i32` counter (`count`). -/
structure Store where
  count : ℤ
deriving DecidableEq

/-- `Store::new`: counter starts at 0. -/
def Store.new : Store := ⟨0⟩

/-- `Store::update`: Increment adds 1, Decrement subtracts 1, in `i32`
arithmetic (wrapping embedding of the source's `+= 1` / `-= 1`). -/
def Store.update (s : Store) (a : Action) : Store :=
  match a with
  | .Increment => ⟨wrap32 (s.count + 1)⟩
  | .Decrement => ⟨wrap32 (s.count - 1)⟩

/-- `Dispatcher::dispatch`: locks the store and calls `update`.  The mutex
is a no-op in the single-threaded execution, so the embedding is the
store transformer itself. -/
def dispatch (s : Store) (a : Action) : Store := s.update a

/-- The `if let Some(action) = ... { dispatch(action) }` step of the loop. -/
def dispatchOpt (s : Store) (oa : Option Action) : Store :=
  match oa with
  | some a => dispatch s a
  | none => s

/-- Applying a whole list of actions to a store, one `update` at a time. -/
def applySeq (s : Store) (l : List Action) : Store := l.foldl Store.update s

/-- Signed sum of the unit deltas of a list of actions. -/
def actDelta : List Action → ℤ
  | [] => 0
  | Action.Increment :: r => 1 + actDelta r
  | Action.Decrement :: r => -1 + actDelta r

/-- Key codes that the loop distinguishes: `Up`, `Down`, `Char(c)` and a
catch-all for every other crossterm key code. -/
inductive KeyCode where
  | up
  | down
  | char (c : Char)
  | otherKey
deriving DecidableEq

/-- Input events: a key event carrying a key code, or any non-key event
(resize, mouse, ...), which the loop ignores. -/
inductive Event where
  | key (code : KeyCode)
  | notKey
deriving DecidableEq

/-- Outcome of one `event::poll(50ms)` call together with the `event::read`
that follows it when the poll reports an event:
`pollErr` = the poll itself returns `Err`; `noEvent` = poll returns
`Ok(false)`; `readErr` = poll returns `Ok(true)` and the read returns
`Err`; `ev e` = poll returns `Ok(true)` and the read returns `Ok(e)`. -/
inductive PollResult where
  | pollErr
  | noEvent
  | readErr
  | ev (e : Event)
deriving DecidableEq

/-- Result of `View::handle_user_input`: the source calls `.unwrap()` on
both the poll and the read, so an I/O failure there is a panic, not a
returned error. -/
inductive HUIResult where
  | panicked
  | ok (oa : Option Action)
deriving DecidableEq

/-- `View::handle_user_input`: maps the first-phase poll outcome to an
optional `Action`.  `Up` gives Increment, `Down` gives Decrement, the
explicit `Char('q')` arm returns `None` (as does the wildcard arm), a
non-key event gives `None`, no event gives `None`, and an `Err` from
poll or read panics through `.unwrap()`. -/
def handle_user_input (p : PollResult) : HUIResult :=
  match p with
  | .pollErr => .panicked
  | .readErr => .panicked
  | .noEvent => .ok none
  | .ev e =>
    match e with
    | .key k =>
      .ok (match k with
        | .up => some Action.Increment
        | .down => some Action.Decrement
        | .char c => if c = 'q' then none else none
        | .otherKey => none)
    | .notKey => .ok none

/-- Result of the second (quit-check) polling phase in `View::run`:
this phase uses `?`, so I/O failures propagate as errors. -/
inductive QuitResult where
  | ioErr
  | quit
  | cont
deriving DecidableEq

/-- The quit-check block of `View::run`: propagate poll/read errors,
break on the key `q`, otherwise fall through to the next iteration. -/
def quit_check (p : PollResult) : QuitResult :=
  match p with
  | .pollErr => .ioErr
  | .readErr => .ioErr
  | .noEvent => .cont
  | .ev e =>
    match e with
    | .key k => if k = KeyCode.char 'q' then .quit else .cont
    | .notKey => .cont

/-- Oracle for the external collaborators: the outcome of each successive
`terminal.draw` call, each `event::poll` call (both phases draw from the
same input stream), and each `terminal.clear` call.  `true` = the I/O
call succeeds.  An exhausted list means the call succeeds with no event. -/
structure Env where
  draws : List Bool
  inputs : List PollResult
  clears : List Bool
deriving DecidableEq

/-- Observable steps of the loop, in the order they happen: the counter
read from the store, the value drawn, what each polling phase consumed,
each dispatched action, and the final screen clear. -/
inductive Obs where
  | readCount (v : ℤ)
  | rendered (v : ℤ)
  | polled1 (p : PollResult)
  | dispatched (a : Action)
  | polled2 (p : PollResult)
  | cleared
deriving DecidableEq

/-- Trace fragment contributed by the dispatch of an optional action. -/
def dispObs (oa : Option Action) : List Obs :=
  match oa with
  | some a => [Obs.dispatched a]
  | none => []

/-- Outcome of one iteration of the `loop` in `View::run`:
continue with a new store, break (q observed in the quit check),
propagate an I/O error via `?`, or abort via a `.unwrap()` panic. -/
inductive IterOut where
  | next (s : Store)
  | brk (s : Store)
  | ioErr (s : Store)
  | panicked (s : Store)
deriving DecidableEq

/-- One iteration of the `loop` body in `View::run`: read the counter,
draw it (`?`), run `handle_user_input` and dispatch its action, then run
the quit check (`?`).  Returns the outcome, the remaining oracle, and
the trace of observable steps of this iteration. -/
def runIter (s : Store) (env : Env) : IterOut × Env × List Obs :=
  let v := s.count
  if env.draws.headD true then
    let p1 := env.inputs.headD PollResult.noEvent
    match handle_user_input p1 with
    | .panicked =>
      (IterOut.panicked s, ⟨env.draws.tail, env.inputs.tail, env.clears⟩,
       [Obs.readCount v, Obs.rendered v, Obs.polled1 p1])
    | .ok oa =>
      let s2 := dispatchOpt s oa
      let p2 := env.inputs.tail.headD PollResult.noEvent
      ((match quit_check p2 with
        | .ioErr => IterOut.ioErr s2
        | .quit => IterOut.brk s2
        | .cont => IterOut.next s2),
       ⟨env.draws.tail, env.inputs.tail.tail, env.clears⟩,
       [Obs.readCount v, Obs.rendered v, Obs.polled1 p1]
         ++ dispObs oa ++ [Obs.polled2 p2])
  else
    (IterOut.ioErr s, ⟨env.draws.tail, env.inputs, env.clears⟩,
     [Obs.readCount v])

/-- Result of `View::run`: normal exit (`Ok(())`), a propagated
`io::Error`, a panic, or fuel exhausted (the loop is still running). -/
inductive RunResult where
  | ok (s : Store)
  | ioErr (s : Store)
  | panicked (s : Store)
  | fuelOut (s : Store)
deriving DecidableEq

/-- Fuel-bounded unfolding of the `loop` in `View::run`, followed by the
`terminal.clear()?` on the break path. -/
def run : Nat → Store → Env → RunResult × List Obs
  | 0, s, _ => (RunResult.fuelOut s, [])
  | Nat.succ fuel, s, env =>
    match runIter s env with
    | (IterOut.next s2, env2, obs) =>
      let r := run fuel s2 env2
      (r.1, obs ++ r.2)
    | (IterOut.brk s2, env2, obs) =>
      if env2.clears.headD true then (RunResult.ok s2, obs ++ [Obs.cleared])
      else (RunResult.ioErr s2, obs)
    | (IterOut.ioErr s2, _, obs) => (RunResult.ioErr s2, obs)
    | (IterOut.panicked s2, _, obs) => (RunResult.panicked s2, obs)

/-- Modelled from the spec: the process-level exit status mapping, which
lives in the Rust runtime rather than in src/ — a `main` returning
`Ok` exits 0, a propagated `io::Error` exits non-zero (1), and a panic
aborts the process with the non-zero status 101. -/
def exitCode : RunResult → Nat
  | RunResult.ok _ => 0
  | RunResult.ioErr _ => 1
  | RunResult.panicked _ => 101
  | RunResult.fuelOut _ => 0

/-- A rectangular region of the terminal (ratatui `Rect`). -/
structure Rect where
  x : ℕ
  y : ℕ
  width : ℕ
  height : ℕ
deriving DecidableEq

/-- Modelled from the spec: the layout collaborator (ratatui) — a vertical
`Layout` with the single constraint `Percentage(100)` splits the frame
area into exactly one chunk, the full available area. -/
def layoutSplitFull (area : Rect) : List Rect := [area]

/-- Description of what the closure passed to `terminal.draw` renders:
one paragraph widget with its text, whether it has all four borders, and
the region it is rendered into. -/
structure Widget where
  text : String
  hasAllBorders : Bool
  region : Rect
deriving DecidableEq

/-- `View::draw_ui` (content of the draw closure): split the frame area
with a single `Percentage(100)` constraint, format `Counter: {count}`,
and render it as a paragraph with `Borders::ALL` into the first chunk. -/
def draw_ui (area : Rect) (count : ℤ) : Widget :=
  let chunks := layoutSplitFull area
  { text := "Counter: " ++ toString count
  , hasAllBorders := true
  , region := chunks.headD area }

/-- The spec's key mapping, stated from the spec's words: `Up` maps to an
Increment request, `Down` to a Decrement request, everything else (other
keys, non-key events, no event, failures) to no request. -/
def specAction (p : PollResult) : Option Action :=
  match p with
  | PollResult.ev (Event.key KeyCode.up) => some Action.Increment
  | PollResult.ev (Event.key KeyCode.down) => some Action.Decrement
  | _ => none

/-- Trace well-formedness, stated from the spec's key-mapping words:
every first-phase poll observation is followed by exactly the dispatch
that `specAction` assigns to it (one Increment for `Up`, one Decrement
for `Down`, none otherwise), and a dispatch never occurs except
immediately after the first-phase poll observation that produced it. -/
def traceOk : List Obs → Bool
  | [] => true
  | Obs.polled1 p :: Obs.dispatched b :: r =>
    (match specAction p with
     | some a => (a == b) && traceOk r
     | none => false)
  | Obs.polled1 p :: rest =>
    (match specAction p with
     | some _ => false
     | none => traceOk rest)
  | Obs.dispatched _ :: _ => false
  | _ :: rest => traceOk rest

/- ------------------------------------------------------------------ -/
/- Arithmetic lemmas about the `i32` embedding.                        -/
/- ------------------------------------------------------------------ -/

lemma wrap32_eq_self {z : ℤ} (h1 : -2147483648 ≤ z) (h2 : z < 2147483648) :
    wrap32 z = z := by
  unfold wrap32
  omega

lemma wrap32_bounds (z : ℤ) : -2147483648 ≤ wrap32 z ∧ wrap32 z < 2147483648 := by
  unfold wrap32
  omega

lemma wrap32_add_left (z k : ℤ) : wrap32 (wrap32 z + k) = wrap32 (z + k) := by
  unfold wrap32
  omega

lemma applySeq_count (l : List Action) : ∀ (z : ℤ) (s : Store),
    s.count = wrap32 z → (applySeq s l).count = wrap32 (z + actDelta l) := by
  induction l with
  | nil =>
    intro z s hs
    simpa [applySeq, actDelta] using hs
  | cons a r ih =>
    intro z s hs
    have hstep : applySeq s (a :: r) = applySeq (s.update a) r := rfl
    rw [hstep]
    cases a with
    | Increment =>
      have hcount : (s.update Action.Increment).count = wrap32 (z + 1) := by
        simp only [Store.update, hs]
        exact wrap32_add_left z 1
      have := ih (z + 1) (s.update Action.Increment) hcount
      rw [this, actDelta]
      ring_nf
    | Decrement =>
      have hcount : (s.update Action.Decrement).count = wrap32 (z - 1) := by
        simp only [Store.update, hs]
        exact wrap32_add_left z (-1)
      have := ih (z - 1) (s.update Action.Decrement) hcount
      rw [this, actDelta]
      ring_nf

lemma actDelta_append (l1 l2 : List Action) :
    actDelta (l1 ++ l2) = actDelta l1 + actDelta l2 := by
  induction l1 with
  | nil => simp [actDelta]
  | cons a r ih =>
    cases a <;> simp [actDelta, ih] <;> ring

lemma actDelta_replicate_inc (n : ℕ) :
    actDelta (List.replicate n Action.Increment) = n := by
  induction n with
  | zero => simp [actDelta]
  | succ k ih =>
    rw [List.replicate_succ, actDelta, ih]
    push_cast
    ring

lemma actDelta_replicate_dec (n : ℕ) :
    actDelta (List.replicate n Action.Decrement) = -(n : ℤ) := by
  induction n with
  | zero => simp [actDelta]
  | succ k ih =>
    rw [List.replicate_succ, actDelta, ih]
    push_cast
    ring

lemma store_new_count : Store.new.count = wrap32 0 := by decide

lemma actDelta_inc_dec (N M : ℕ) :
    actDelta (List.replicate N Action.Increment ++ List.replicate M Action.Decrement)
      = (N : ℤ) - M := by
  rw [actDelta_append, actDelta_replicate_inc, actDelta_replicate_dec]
  ring

lemma applySeq_inc_dec (N M : ℕ) :
    (applySeq Store.new
      (List.replicate N Action.Increment ++ List.replicate M Action.Decrement)).count
      = wrap32 ((N : ℤ) - M) := by
  have h := applySeq_count
    (List.replicate N Action.Increment ++ List.replicate M Action.Decrement)
    0 Store.new store_new_count
  rw [actDelta_inc_dec, zero_add] at h
  exact h

/-- C1: the claim holds up to `i32` wrapping: N Increments then M
Decrements on a fresh store leave the counter at the 32-bit
two's-complement wrap of N − M, which equals N − M exactly when N − M
lies in the `i32` range; and each single update is precisely the
wrapped ±1 on the counter, with no other change to the state. -/
theorem store_sequence_counter (N M : ℕ) :
    (applySeq Store.new
      (List.replicate N Action.Increment ++ List.replicate M Action.Decrement)).count
      = wrap32 ((N : ℤ) - M)
    ∧ (-2147483648 ≤ (N : ℤ) - M ∧ (N : ℤ) - M < 2147483648 →
       (applySeq Store.new
         (List.replicate N Action.Increment ++ List.replicate M Action.Decrement)).count
         = (N : ℤ) - M)
    ∧ (∀ s : Store, s.update Action.Increment = ⟨wrap32 (s.count + 1)⟩
        ∧ s.update Action.Decrement = ⟨wrap32 (s.count - 1)⟩) := by
  refine ⟨applySeq_inc_dec N M, ?_, ?_⟩
  · rintro ⟨hlo, hhi⟩
    rw [applySeq_inc_dec N M]
    exact wrap32_eq_self hlo hhi
  · intro s
    exact ⟨rfl, rfl⟩

/-- C1 witness: 3 Increments then 5 Decrements on a fresh store leave
the counter at −2 (spec Scenario 2). -/
theorem store_sequence_counter_witness :
    (applySeq Store.new
      (List.replicate 3 Action.Increment ++ List.replicate 5 Action.Decrement)).count
      = -2 :=
  ((store_sequence_counter 3 5).2.1 (by norm_num)).trans (by norm_num)

/-- C1 counterexample: 2^31 Increments (and zero Decrements) on a fresh
store do not leave the counter at 2^31 − 0: the `i32` counter wraps to
−2^31, so the claim's unconditional "counter equals N − M" fails. -/
theorem store_sequence_counter_cex :
    (applySeq Store.new
      (List.replicate (2 ^ 31) Action.Increment
        ++ List.replicate 0 Action.Decrement)).count
      ≠ ((2 ^ 31 : ℕ) : ℤ) - (0 : ℕ) := by
  rw [applySeq_inc_dec (2 ^ 31) 0]
  norm_num [wrap32]

/-- C10: Increment and Decrement are mutual inverses on every store
whose counter is a valid `i32` value (as every reachable store's is):
updating with one and then the other restores the exact store. -/
theorem update_inverse (s : Store)
    (h1 : -2147483648 ≤ s.count) (h2 : s.count < 2147483648) :
    (s.update Action.Increment).update Action.Decrement = s
    ∧ (s.update Action.Decrement).update Action.Increment = s := by
  have e1 : (s.update Action.Increment).update Action.Decrement
      = (⟨wrap32 (wrap32 (s.count + 1) - 1)⟩ : Store) := rfl
  have e2 : (s.update Action.Decrement).update Action.Increment
      = (⟨wrap32 (wrap32 (s.count - 1) + 1)⟩ : Store) := rfl
  have w1 : wrap32 (wrap32 (s.count + 1) - 1) = s.count := by
    rw [sub_eq_add_neg, wrap32_add_left]
    have h : s.count + 1 + -1 = s.count := by ring
    rw [h, wrap32_eq_self h1 h2]
  have w2 : wrap32 (wrap32 (s.count - 1) + 1) = s.count := by
    rw [wrap32_add_left]
    have h : s.count - 1 + 1 = s.count := by ring
    rw [h, wrap32_eq_self h1 h2]
  constructor
  · rw [e1, w1]
  · rw [e2, w2]

/-- C10 witness: at counter value 5, Increment then Decrement (and
Decrement then Increment) restore the store exactly. -/
theorem update_inverse_witness :
    ((⟨5⟩ : Store).update Action.Increment).update Action.Decrement = (⟨5⟩ : Store)
    ∧ ((⟨5⟩ : Store).update Action.Decrement).update Action.Increment = (⟨5⟩ : Store) :=
  update_inverse ⟨5⟩ (by norm_num) (by norm_num)


lemma runIter_eq_draw_fail (s : Store) (env : Env)
    (hd : env.draws.headD true = false) :
    runIter s env = (IterOut.ioErr s, ⟨env.draws.tail, env.inputs, env.clears⟩,
      [Obs.readCount s.count]) := by
  simp only [runIter]
  rw [hd]
  simp

lemma runIter_eq_panic (s : Store) (env : Env)
    (hd : env.draws.headD true = true)
    (hp : handle_user_input (env.inputs.headD PollResult.noEvent) = HUIResult.panicked) :
    runIter s env = (IterOut.panicked s, ⟨env.draws.tail, env.inputs.tail, env.clears⟩,
      [Obs.readCount s.count, Obs.rendered s.count,
       Obs.polled1 (env.inputs.headD PollResult.noEvent)]) := by
  simp only [runIter]
  rw [hd, hp]
  simp

lemma runIter_eq_ok (s : Store) (env : Env) (oa : Option Action)
    (hd : env.draws.headD true = true)
    (hp : handle_user_input (env.inputs.headD PollResult.noEvent) = HUIResult.ok oa) :
    runIter s env
      = ((match quit_check (env.inputs.tail.headD PollResult.noEvent) with
          | QuitResult.ioErr => IterOut.ioErr (dispatchOpt s oa)
          | QuitResult.quit => IterOut.brk (dispatchOpt s oa)
          | QuitResult.cont => IterOut.next (dispatchOpt s oa)),
         ⟨env.draws.tail, env.inputs.tail.tail, env.clears⟩,
         [Obs.readCount s.count, Obs.rendered s.count,
          Obs.polled1 (env.inputs.headD PollResult.noEvent)]
           ++ dispObs oa
           ++ [Obs.polled2 (env.inputs.tail.headD PollResult.noEvent)]) := by
  simp only [runIter]
  rw [hd, hp]
  simp

lemma run_succ_next (fuel : Nat) (s : Store) (env : Env) (s2 : Store)
    (env2 : Env) (obs : List Obs)
    (h : runIter s env = (IterOut.next s2, env2, obs)) :
    run (fuel + 1) s env = ((run fuel s2 env2).1, obs ++ (run fuel s2 env2).2) := by
  simp only [run]
  rw [h]

lemma run_succ_brk_ok (fuel : Nat) (s : Store) (env : Env) (s2 : Store)
    (env2 : Env) (obs : List Obs)
    (h : runIter s env = (IterOut.brk s2, env2, obs))
    (hc : env2.clears.headD true = true) :
    run (fuel + 1) s env = (RunResult.ok s2, obs ++ [Obs.cleared]) := by
  simp only [run]
  rw [h]
  dsimp only
  rw [hc]
  simp

lemma run_succ_brk_err (fuel : Nat) (s : Store) (env : Env) (s2 : Store)
    (env2 : Env) (obs : List Obs)
    (h : runIter s env = (IterOut.brk s2, env2, obs))
    (hc : env2.clears.headD true = false) :
    run (fuel + 1) s env = (RunResult.ioErr s2, obs) := by
  simp only [run]
  rw [h]
  dsimp only
  rw [hc]
  simp

lemma run_succ_ioErr (fuel : Nat) (s : Store) (env : Env) (s2 : Store)
    (env2 : Env) (obs : List Obs)
    (h : runIter s env = (IterOut.ioErr s2, env2, obs)) :
    run (fuel + 1) s env = (RunResult.ioErr s2, obs) := by
  simp only [run]
  rw [h]

lemma run_succ_panicked (fuel : Nat) (s : Store) (env : Env) (s2 : Store)
    (env2 : Env) (obs : List Obs)
    (h : runIter s env = (IterOut.panicked s2, env2, obs)) :
    run (fuel + 1) s env = (RunResult.panicked s2, obs) := by
  simp only [run]
  rw [h]


lemma specAction_eq_handle (p : PollResult) (oa : Option Action)
    (h : handle_user_input p = HUIResult.ok oa) : specAction p = oa := by
  rcases p with _ | _ | _ | e
  · simp [handle_user_input] at h
  · simp only [handle_user_input, HUIResult.ok.injEq] at h
    rw [← h]
    rfl
  · simp [handle_user_input] at h
  · rcases e with k | _
    · rcases k with _ | _ | c | _
      · simp only [handle_user_input, HUIResult.ok.injEq] at h
        rw [← h]
        rfl
      · simp only [handle_user_input, HUIResult.ok.injEq] at h
        rw [← h]
        rfl
      · simp only [handle_user_input, ite_self, HUIResult.ok.injEq] at h
        rw [← h]
        rfl
      · simp only [handle_user_input, HUIResult.ok.injEq] at h
        rw [← h]
        rfl
    · simp only [handle_user_input, HUIResult.ok.injEq] at h
      rw [← h]
      rfl


lemma traceOk_iter_ok (v : ℤ) (p1 p2 : PollResult) (oa : Option Action) (l : List Obs)
    (h : handle_user_input p1 = HUIResult.ok oa)
    (hl : traceOk l = true) :
    traceOk (([Obs.readCount v, Obs.rendered v, Obs.polled1 p1]
      ++ dispObs oa ++ [Obs.polled2 p2]) ++ l) = true := by
  have hsa : specAction p1 = oa := specAction_eq_handle p1 oa h
  cases oa with
  | none => simp [dispObs, traceOk, hsa, hl]
  | some a => simp [dispObs, traceOk, hsa, hl]

lemma traceOk_iter_panic (v : ℤ) (p1 : PollResult)
    (h : handle_user_input p1 = HUIResult.panicked) :
    traceOk [Obs.readCount v, Obs.rendered v, Obs.polled1 p1] = true := by
  have hsa : specAction p1 = none := by
    rcases p1 with _ | _ | _ | e
    · rfl
    · rfl
    · rfl
    · rcases e with k | _
      · rcases k with _ | _ | c | _ <;> simp [handle_user_input] at h
      · simp [handle_user_input] at h
  simp [traceOk, hsa]


/-- C2: amended — in every run trace, each input consumed by the FIRST
polling phase is followed by exactly the dispatch the spec's key mapping
assigns it (one Increment for Up, one Decrement for Down, none for any
other outcome), and dispatches happen nowhere else; in particular an
Up/Down press consumed by the second (quit-check) phase produces no
dispatch. -/
theorem run_trace_spec_mapping : ∀ (fuel : Nat) (s : Store) (env : Env),
    traceOk (run fuel s env).2 = true := by
  intro fuel
  induction fuel with
  | zero =>
    intro s env
    simp [run, traceOk]
  | succ n ih =>
    intro s env
    by_cases hd : env.draws.headD true = true
    · cases hh : handle_user_input (env.inputs.headD PollResult.noEvent) with
      | panicked =>
        rw [run_succ_panicked n s env s _ _ (runIter_eq_panic s env hd hh)]
        exact traceOk_iter_panic s.count _ hh
      | ok oa =>
        have hI := runIter_eq_ok s env oa hd hh
        cases hq : quit_check (env.inputs.tail.headD PollResult.noEvent) with
        | ioErr =>
          have hI2 : runIter s env = (IterOut.ioErr (dispatchOpt s oa),
              ⟨env.draws.tail, env.inputs.tail.tail, env.clears⟩,
              [Obs.readCount s.count, Obs.rendered s.count,
               Obs.polled1 (env.inputs.headD PollResult.noEvent)]
                ++ dispObs oa
                ++ [Obs.polled2 (env.inputs.tail.headD PollResult.noEvent)]) := by
            rw [hI, hq]
          rw [run_succ_ioErr n s env _ _ _ hI2]
          have hgen := traceOk_iter_ok s.count
            (env.inputs.headD PollResult.noEvent)
            (env.inputs.tail.headD PollResult.noEvent) oa [] hh (by simp [traceOk])
          simpa using hgen
        | quit =>
          have hI2 : runIter s env = (IterOut.brk (dispatchOpt s oa),
              ⟨env.draws.tail, env.inputs.tail.tail, env.clears⟩,
              [Obs.readCount s.count, Obs.rendered s.count,
               Obs.polled1 (env.inputs.headD PollResult.noEvent)]
                ++ dispObs oa
                ++ [Obs.polled2 (env.inputs.tail.headD PollResult.noEvent)]) := by
            rw [hI, hq]
          by_cases hc : (env.clears : List Bool).headD true = true
          · rw [run_succ_brk_ok n s env _ _ _ hI2 hc]
            have hgen := traceOk_iter_ok s.count
              (env.inputs.headD PollResult.noEvent)
              (env.inputs.tail.headD PollResult.noEvent) oa [Obs.cleared] hh
              (by simp [traceOk])
            simpa using hgen
          · rw [Bool.not_eq_true] at hc
            rw [run_succ_brk_err n s env _ _ _ hI2 hc]
            have hgen := traceOk_iter_ok s.count
              (env.inputs.headD PollResult.noEvent)
              (env.inputs.tail.headD PollResult.noEvent) oa [] hh (by simp [traceOk])
            simpa using hgen
        | cont =>
          have hI2 : runIter s env = (IterOut.next (dispatchOpt s oa),
              ⟨env.draws.tail, env.inputs.tail.tail, env.clears⟩,
              [Obs.readCount s.count, Obs.rendered s.count,
               Obs.polled1 (env.inputs.headD PollResult.noEvent)]
                ++ dispObs oa
                ++ [Obs.polled2 (env.inputs.tail.headD PollResult.noEvent)]) := by
            rw [hI, hq]
          rw [run_succ_next n s env _ _ _ hI2]
          have hgen := traceOk_iter_ok s.count
            (env.inputs.headD PollResult.noEvent)
            (env.inputs.tail.headD PollResult.noEvent) oa
            ((run n (dispatchOpt s oa)
              ⟨env.draws.tail, env.inputs.tail.tail, env.clears⟩).2) hh (ih _ _)
          simpa using hgen
    · rw [Bool.not_eq_true] at hd
      rw [run_succ_ioErr n s env s _ _ (runIter_eq_draw_fail s env hd)]
      simp [traceOk]


lemma cleared_not_mem_runIter (s : Store) (env : Env) :
    Obs.cleared ∉ (runIter s env).2.2 := by
  by_cases hd : env.draws.headD true = true
  · cases hh : handle_user_input (env.inputs.headD PollResult.noEvent) with
    | panicked =>
      rw [runIter_eq_panic s env hd hh]
      simp
    | ok oa =>
      rw [runIter_eq_ok s env oa hd hh]
      cases oa <;> simp [dispObs]
  · rw [Bool.not_eq_true] at hd
    rw [runIter_eq_draw_fail s env hd]
    simp

lemma cleared_not_mem_run : ∀ (f : Nat) (s : Store) (env : Env) (sF : Store),
    ((run f s env).1 = RunResult.ioErr sF ∨ (run f s env).1 = RunResult.panicked sF) →
    Obs.cleared ∉ (run f s env).2 := by
  intro f
  induction f with
  | zero =>
    intro s env sF hF
    simp [run]
  | succ n ih =>
    intro s env sF hF
    rcases hI : runIter s env with ⟨out, env2, obs⟩
    have hobs : Obs.cleared ∉ obs := by
      have hm := cleared_not_mem_runIter s env
      rw [hI] at hm
      exact hm
    cases out with
    | next s2 =>
      have he := run_succ_next n s env s2 env2 obs hI
      rw [he] at hF ⊢
      simp only [List.mem_append] at *
      push_neg
      exact ⟨hobs, ih s2 env2 sF hF⟩
    | brk s2 =>
      by_cases hc : env2.clears.headD true = true
      · have he := run_succ_brk_ok n s env s2 env2 obs hI hc
        rw [he] at hF
        simp at hF
      · rw [Bool.not_eq_true] at hc
        have he := run_succ_brk_err n s env s2 env2 obs hI hc
        rw [he]
        simpa using hobs
    | ioErr s2 =>
      have he := run_succ_ioErr n s env s2 env2 obs hI
      rw [he]
      simpa using hobs
    | panicked s2 =>
      have he := run_succ_panicked n s env s2 env2 obs hI
      rw [he]
      simpa using hobs

lemma run_trace_begin (f : Nat) (s : Store) (env : Env)
    (hd : env.draws.headD true = true) :
    (run (f + 1) s env).2.headD Obs.cleared = Obs.readCount s.count
    ∧ (run (f + 1) s env).2.tail.headD Obs.cleared = Obs.rendered s.count := by
  cases hh : handle_user_input (env.inputs.headD PollResult.noEvent) with
  | panicked =>
    rw [run_succ_panicked f s env s _ _ (runIter_eq_panic s env hd hh)]
    exact ⟨rfl, rfl⟩
  | ok oa =>
    have hI := runIter_eq_ok s env oa hd hh
    cases hq : quit_check (env.inputs.tail.headD PollResult.noEvent) with
    | ioErr =>
      have hI2 : runIter s env = (IterOut.ioErr (dispatchOpt s oa),
          ⟨env.draws.tail, env.inputs.tail.tail, env.clears⟩,
          [Obs.readCount s.count, Obs.rendered s.count,
           Obs.polled1 (env.inputs.headD PollResult.noEvent)]
            ++ dispObs oa
            ++ [Obs.polled2 (env.inputs.tail.headD PollResult.noEvent)]) := by
        rw [hI, hq]
      rw [run_succ_ioErr f s env _ _ _ hI2]
      exact ⟨rfl, rfl⟩
    | quit =>
      have hI2 : runIter s env = (IterOut.brk (dispatchOpt s oa),
          ⟨env.draws.tail, env.inputs.tail.tail, env.clears⟩,
          [Obs.readCount s.count, Obs.rendered s.count,
           Obs.polled1 (env.inputs.headD PollResult.noEvent)]
            ++ dispObs oa
            ++ [Obs.polled2 (env.inputs.tail.headD PollResult.noEvent)]) := by
        rw [hI, hq]
      by_cases hc : (env.clears : List Bool).headD true = true
      · rw [run_succ_brk_ok f s env _ _ _ hI2 hc]
        exact ⟨rfl, rfl⟩
      · rw [Bool.not_eq_true] at hc
        rw [run_succ_brk_err f s env _ _ _ hI2 hc]
        exact ⟨rfl, rfl⟩
    | cont =>
      have hI2 : runIter s env = (IterOut.next (dispatchOpt s oa),
          ⟨env.draws.tail, env.inputs.tail.tail, env.clears⟩,
          [Obs.readCount s.count, Obs.rendered s.count,
           Obs.polled1 (env.inputs.headD PollResult.noEvent)]
            ++ dispObs oa
            ++ [Obs.polled2 (env.inputs.tail.headD PollResult.noEvent)]) := by
        rw [hI, hq]
      rw [run_succ_next f s env _ _ _ hI2]
      exact ⟨rfl, rfl⟩


/-- C2 counterexample: a concrete run in which an Up key press is
observed (consumed) by the second polling phase: the full trace contains
no dispatch at all and the loop exits with the counter still 0, so the
claim's "no observed Up press fails to produce its one dispatch" is
false on the code. -/
theorem phase2_up_drop_cex :
    (run 2 Store.new ⟨[], [PollResult.noEvent, PollResult.ev (Event.key KeyCode.up),
        PollResult.noEvent, PollResult.ev (Event.key (KeyCode.char 'q'))], []⟩)
      = (RunResult.ok ⟨0⟩,
         [Obs.readCount 0, Obs.rendered 0, Obs.polled1 PollResult.noEvent,
          Obs.polled2 (PollResult.ev (Event.key KeyCode.up)),
          Obs.readCount 0, Obs.rendered 0, Obs.polled1 PollResult.noEvent,
          Obs.polled2 (PollResult.ev (Event.key (KeyCode.char 'q'))), Obs.cleared]) := by
  decide

/-- C3: amended — a `q` observed by the SECOND (quit-check) polling
phase breaks the loop (the iteration outcome is `brk`) and, when the
final clear succeeds, the whole run returns Ok; but a `q` consumed by
the first (action-mapping) phase is discarded and the loop continues
into the next iteration. -/
theorem q_second_phase_terminates (fuel : Nat) (s : Store) (ds2 : List Bool)
    (ins : List PollResult) (cs : List Bool) (p1 : PollResult) (oa : Option Action)
    (h1 : handle_user_input p1 = HUIResult.ok oa)
    (hc : cs.headD true = true) :
    (runIter s ⟨true :: ds2,
        p1 :: PollResult.ev (Event.key (KeyCode.char 'q')) :: ins, cs⟩).1
      = IterOut.brk (dispatchOpt s oa)
    ∧ (run (fuel + 1) s ⟨true :: ds2,
        p1 :: PollResult.ev (Event.key (KeyCode.char 'q')) :: ins, cs⟩).1
      = RunResult.ok (dispatchOpt s oa)
    ∧ (runIter s ⟨true :: ds2,
        PollResult.ev (Event.key (KeyCode.char 'q')) :: PollResult.noEvent :: ins, cs⟩).1
      = IterOut.next s := by
  have hq : quit_check (PollResult.ev (Event.key (KeyCode.char 'q'))) = QuitResult.quit := by
    decide
  have hq1 : handle_user_input (PollResult.ev (Event.key (KeyCode.char 'q')))
      = HUIResult.ok none := by decide
  have hI2 : runIter s ⟨true :: ds2,
      p1 :: PollResult.ev (Event.key (KeyCode.char 'q')) :: ins, cs⟩
      = (IterOut.brk (dispatchOpt s oa), ⟨ds2, ins, cs⟩,
         [Obs.readCount s.count, Obs.rendered s.count, Obs.polled1 p1]
           ++ dispObs oa
           ++ [Obs.polled2 (PollResult.ev (Event.key (KeyCode.char 'q')))]) := by
    rw [runIter_eq_ok s
      ⟨true :: ds2, p1 :: PollResult.ev (Event.key (KeyCode.char 'q')) :: ins, cs⟩
      oa rfl h1]
    simp only [List.tail_cons, List.headD_cons]
    rw [hq]
  refine ⟨by rw [hI2], ?_, ?_⟩
  · rw [run_succ_brk_ok fuel s _ _ _ _ hI2 hc]
  · rw [runIter_eq_ok s
      ⟨true :: ds2, PollResult.ev (Event.key (KeyCode.char 'q')) :: PollResult.noEvent :: ins, cs⟩
      none rfl hq1]
    rfl

/-- C3 witness: concrete instance — `q` in the second phase of the
first iteration makes the run return Ok immediately, while `q` in the
first phase leaves the iteration outcome `next`. -/
theorem q_second_phase_terminates_witness :
    (runIter Store.new ⟨[true],
        [PollResult.noEvent, PollResult.ev (Event.key (KeyCode.char 'q'))], []⟩).1
      = IterOut.brk Store.new
    ∧ (run 1 Store.new ⟨[true],
        [PollResult.noEvent, PollResult.ev (Event.key (KeyCode.char 'q'))], []⟩).1
      = RunResult.ok Store.new
    ∧ (runIter Store.new ⟨[true],
        [PollResult.ev (Event.key (KeyCode.char 'q')), PollResult.noEvent], []⟩).1
      = IterOut.next Store.new :=
  q_second_phase_terminates 0 Store.new [] [] [] PollResult.noEvent none rfl rfl

/-- C3 counterexample: a concrete run whose only `q` arrives in the
FIRST polling phase: the loop does not terminate (it exhausts its fuel
still in the Running state, its trace showing the consumed `q`), so the
claim's "in either polling phase" is false on the code. -/
theorem q_first_phase_cex :
    (run 2 Store.new ⟨[],
        [PollResult.ev (Event.key (KeyCode.char 'q')), PollResult.noEvent], []⟩).1
      = RunResult.fuelOut Store.new
    ∧ (run 2 Store.new ⟨[],
        [PollResult.ev (Event.key (KeyCode.char 'q')), PollResult.noEvent], []⟩).2
      = [Obs.readCount 0, Obs.rendered 0,
         Obs.polled1 (PollResult.ev (Event.key (KeyCode.char 'q'))),
         Obs.polled2 PollResult.noEvent,
         Obs.readCount 0, Obs.rendered 0, Obs.polled1 PollResult.noEvent,
         Obs.polled2 PollResult.noEvent] := by
  decide

/-- C4: amended — a rendering-surface failure and a poll/read failure
in the SECOND polling phase are propagated immediately as error results
(non-zero exit, no retry); but a poll/read failure in the FIRST polling
phase aborts the process through the `.unwrap()` panic (exit status
101): immediate termination with non-zero status, yet not a propagated
error result. -/
theorem io_failure_paths (fuel : Nat) (s : Store) (ds2 : List Bool)
    (ins : List PollResult) (cs : List Bool) (p1 : PollResult) (oa : Option Action)
    (h1 : handle_user_input p1 = HUIResult.ok oa) :
    run (fuel + 1) s ⟨false :: ds2, ins, cs⟩ = (RunResult.ioErr s, [Obs.readCount s.count])
    ∧ exitCode (RunResult.ioErr s) ≠ 0
    ∧ (run (fuel + 1) s ⟨true :: ds2, p1 :: PollResult.pollErr :: ins, cs⟩).1
        = RunResult.ioErr (dispatchOpt s oa)
    ∧ (run (fuel + 1) s ⟨true :: ds2, p1 :: PollResult.readErr :: ins, cs⟩).1
        = RunResult.ioErr (dispatchOpt s oa)
    ∧ (run (fuel + 1) s ⟨true :: ds2, PollResult.pollErr :: ins, cs⟩).1
        = RunResult.panicked s
    ∧ (run (fuel + 1) s ⟨true :: ds2, PollResult.readErr :: ins, cs⟩).1
        = RunResult.panicked s
    ∧ exitCode (RunResult.panicked s) = 101 := by
  refine ⟨?_, Nat.one_ne_zero, ?_, ?_, ?_, ?_, rfl⟩
  · rw [run_succ_ioErr fuel s ⟨false :: ds2, ins, cs⟩ s _ _
      (runIter_eq_draw_fail s ⟨false :: ds2, ins, cs⟩ rfl)]
  · have hI2 : runIter s ⟨true :: ds2, p1 :: PollResult.pollErr :: ins, cs⟩
        = (IterOut.ioErr (dispatchOpt s oa), ⟨ds2, ins, cs⟩,
           [Obs.readCount s.count, Obs.rendered s.count, Obs.polled1 p1]
             ++ dispObs oa ++ [Obs.polled2 PollResult.pollErr]) := by
      rw [runIter_eq_ok s ⟨true :: ds2, p1 :: PollResult.pollErr :: ins, cs⟩ oa rfl h1]
      rfl
    rw [run_succ_ioErr fuel s _ _ _ _ hI2]
  · have hI2 : runIter s ⟨true :: ds2, p1 :: PollResult.readErr :: ins, cs⟩
        = (IterOut.ioErr (dispatchOpt s oa), ⟨ds2, ins, cs⟩,
           [Obs.readCount s.count, Obs.rendered s.count, Obs.polled1 p1]
             ++ dispObs oa ++ [Obs.polled2 PollResult.readErr]) := by
      rw [runIter_eq_ok s ⟨true :: ds2, p1 :: PollResult.readErr :: ins, cs⟩ oa rfl h1]
      rfl
    rw [run_succ_ioErr fuel s _ _ _ _ hI2]
  · rw [run_succ_panicked fuel s ⟨true :: ds2, PollResult.pollErr :: ins, cs⟩ s _ _
      (runIter_eq_panic s ⟨true :: ds2, PollResult.pollErr :: ins, cs⟩ rfl rfl)]
  · rw [run_succ_panicked fuel s ⟨true :: ds2, PollResult.readErr :: ins, cs⟩ s _ _
      (runIter_eq_panic s ⟨true :: ds2, PollResult.readErr :: ins, cs⟩ rfl rfl)]

/-- C4 witness: concrete instances of all the failure paths, from a
fresh store with one iteration of fuel. -/
theorem io_failure_paths_witness :
    run 1 Store.new ⟨[false], [], []⟩ = (RunResult.ioErr Store.new, [Obs.readCount 0])
    ∧ exitCode (RunResult.ioErr Store.new) ≠ 0
    ∧ (run 1 Store.new ⟨[true], [PollResult.noEvent, PollResult.pollErr], []⟩).1
        = RunResult.ioErr Store.new
    ∧ (run 1 Store.new ⟨[true], [PollResult.noEvent, PollResult.readErr], []⟩).1
        = RunResult.ioErr Store.new
    ∧ (run 1 Store.new ⟨[true], [PollResult.pollErr], []⟩).1
        = RunResult.panicked Store.new
    ∧ (run 1 Store.new ⟨[true], [PollResult.readErr], []⟩).1
        = RunResult.panicked Store.new
    ∧ exitCode (RunResult.panicked Store.new) = 101 :=
  io_failure_paths 0 Store.new [] [] [] PollResult.noEvent none rfl

/-- C4 counterexample: a concrete run whose input source fails during
the first-phase poll: the result is a panic (abort, exit status 101),
not a propagated `io::Error` result, so the claim's "propagated ... as
an error result ... in either polling phase" is false on the code. -/
theorem io_failure_first_phase_cex :
    (run 1 Store.new ⟨[], [PollResult.pollErr], []⟩).1 = RunResult.panicked Store.new
    ∧ exitCode (run 1 Store.new ⟨[], [PollResult.pollErr], []⟩).1 = 101 := by
  decide

/-- C5: the render step draws exactly the literal text `Counter: V`
in a paragraph carrying all four borders, into the single chunk of the
full-area layout split, and the rendered widget is a function of the
counter value alone (two renders with the same value are identical). -/
theorem draw_ui_content (area : Rect) (v : ℤ) :
    (draw_ui area v).text = "Counter: " ++ toString v
    ∧ (draw_ui area v).hasAllBorders = true
    ∧ (draw_ui area v).region = area
    ∧ (∀ w : ℤ, w = v → draw_ui area w = draw_ui area v) := by
  refine ⟨rfl, rfl, rfl, ?_⟩
  intro w hw
  rw [hw]

/-- C5 witness: at counter value 7 the rendered widget is the full-area
bordered box with text `Counter: 7`, and re-rendering gives the same
widget. -/
theorem draw_ui_content_witness :
    (draw_ui ⟨0, 0, 80, 24⟩ 7).text = "Counter: 7"
    ∧ (draw_ui ⟨0, 0, 80, 24⟩ 7).hasAllBorders = true
    ∧ (draw_ui ⟨0, 0, 80, 24⟩ 7).region = ⟨0, 0, 80, 24⟩
    ∧ draw_ui ⟨0, 0, 80, 24⟩ 7 = draw_ui ⟨0, 0, 80, 24⟩ 7 := by
  obtain ⟨h1, h2, h3, h4⟩ := draw_ui_content ⟨0, 0, 80, 24⟩ 7
  exact ⟨h1.trans (by decide), h2, h3, h4 7 rfl⟩

/-- C6: whenever an iteration breaks on `q` and the final clear
succeeds, the run ends with the clear as its last observable step and
returns Ok (exit code 0); and no error or panic outcome ever has a
clear in its trace — the clear happens on the success path only. -/
theorem quit_clears_and_exits_zero (fuel f2 : Nat) (s sB sE sF : Store)
    (env env2 envE : Env) (obs : List Obs)
    (hbrk : runIter s env = (IterOut.brk sB, env2, obs))
    (hclr : env2.clears.headD true = true)
    (herr : (run f2 sE envE).1 = RunResult.ioErr sF
      ∨ (run f2 sE envE).1 = RunResult.panicked sF) :
    run (fuel + 1) s env = (RunResult.ok sB, obs ++ [Obs.cleared])
    ∧ exitCode (RunResult.ok sB) = 0
    ∧ Obs.cleared ∉ (run f2 sE envE).2 :=
  ⟨run_succ_brk_ok fuel s env sB env2 obs hbrk hclr, rfl,
   cleared_not_mem_run f2 sE envE sF herr⟩

/-- C6 witness: a concrete `q`-terminated run ends `... ++ [cleared]`
with exit code 0, while a concrete failing run's trace contains no
clear. -/
theorem quit_clears_and_exits_zero_witness :
    run 1 Store.new ⟨[], [PollResult.noEvent,
        PollResult.ev (Event.key (KeyCode.char 'q'))], []⟩
      = (RunResult.ok Store.new,
         [Obs.readCount 0, Obs.rendered 0, Obs.polled1 PollResult.noEvent,
          Obs.polled2 (PollResult.ev (Event.key (KeyCode.char 'q')))] ++ [Obs.cleared])
    ∧ exitCode (RunResult.ok Store.new) = 0
    ∧ Obs.cleared ∉ (run 1 Store.new ⟨[false], [], []⟩).2 :=
  quit_clears_and_exits_zero 0 1 Store.new Store.new Store.new Store.new
    ⟨[], [PollResult.noEvent, PollResult.ev (Event.key (KeyCode.char 'q'))], []⟩
    ⟨[], [], []⟩ ⟨[false], [], []⟩
    [Obs.readCount 0, Obs.rendered 0, Obs.polled1 PollResult.noEvent,
     Obs.polled2 (PollResult.ev (Event.key (KeyCode.char 'q')))]
    (by decide) rfl (Or.inl (by decide))

/-- C7: per-iteration ordering — the trace of an iteration is exactly
read-count, render of that same count, first poll, the dispatch (if
any), second poll; and the next iteration's trace begins by reading and
rendering the post-dispatch store value, so a dispatched request's
effect first appears in the following iteration's render. -/
theorem iteration_order (fuel : Nat) (s : Store) (p1 p2 : PollResult)
    (oa : Option Action) (ds2 : List Bool) (ins : List PollResult) (cs : List Bool)
    (h1 : handle_user_input p1 = HUIResult.ok oa)
    (h2 : quit_check p2 = QuitResult.cont)
    (hd : ds2.headD true = true) :
    (run (fuel + 2) s ⟨true :: ds2, p1 :: p2 :: ins, cs⟩).2
      = ([Obs.readCount s.count, Obs.rendered s.count, Obs.polled1 p1]
          ++ dispObs oa ++ [Obs.polled2 p2])
        ++ (run (fuel + 1) (dispatchOpt s oa) ⟨ds2, ins, cs⟩).2
    ∧ (run (fuel + 1) (dispatchOpt s oa) ⟨ds2, ins, cs⟩).2.headD Obs.cleared
        = Obs.readCount (dispatchOpt s oa).count
    ∧ (run (fuel + 1) (dispatchOpt s oa) ⟨ds2, ins, cs⟩).2.tail.headD Obs.cleared
        = Obs.rendered (dispatchOpt s oa).count := by
  have hI2 : runIter s ⟨true :: ds2, p1 :: p2 :: ins, cs⟩
      = (IterOut.next (dispatchOpt s oa), ⟨ds2, ins, cs⟩,
         [Obs.readCount s.count, Obs.rendered s.count, Obs.polled1 p1]
           ++ dispObs oa ++ [Obs.polled2 p2]) := by
    rw [runIter_eq_ok s ⟨true :: ds2, p1 :: p2 :: ins, cs⟩ oa rfl h1]
    simp only [List.tail_cons, List.headD_cons]
    rw [h2]
  refine ⟨?_, (run_trace_begin fuel (dispatchOpt s oa) ⟨ds2, ins, cs⟩ hd).1,
    (run_trace_begin fuel (dispatchOpt s oa) ⟨ds2, ins, cs⟩ hd).2⟩
  rw [run_succ_next (fuel + 1) s _ _ _ _ hI2]

/-- C7 witness: concrete iteration with an Up press — the trace
renders 0 first, dispatches Increment after the render, and the next
iteration renders the updated counter. -/
theorem iteration_order_witness :
    (run 2 Store.new ⟨[true],
        [PollResult.ev (Event.key KeyCode.up), PollResult.noEvent], []⟩).2
      = ([Obs.readCount 0, Obs.rendered 0,
          Obs.polled1 (PollResult.ev (Event.key KeyCode.up))]
          ++ dispObs (some Action.Increment) ++ [Obs.polled2 PollResult.noEvent])
        ++ (run 1 (dispatchOpt Store.new (some Action.Increment)) ⟨[], [], []⟩).2
    ∧ (run 1 (dispatchOpt Store.new (some Action.Increment)) ⟨[], [], []⟩).2.headD
        Obs.cleared
        = Obs.readCount (dispatchOpt Store.new (some Action.Increment)).count
    ∧ (run 1 (dispatchOpt Store.new (some Action.Increment)) ⟨[], [], []⟩).2.tail.headD
        Obs.cleared
        = Obs.rendered (dispatchOpt Store.new (some Action.Increment)).count :=
  iteration_order 0 Store.new (PollResult.ev (Event.key KeyCode.up)) PollResult.noEvent
    (some Action.Increment) [] [] [] rfl rfl rfl

/-- C8: an input event read during the second (quit-check) polling
phase whose key is not `q` is consumed and discarded: the iteration
continues, the store is exactly the one produced by the first phase
(the event causes no dispatch and leaves the counter unchanged), and
the event is gone from the input stream. -/
theorem quit_phase_drops_events (s : Store) (ds2 : List Bool) (ins : List PollResult)
    (cs : List Bool) (p1 : PollResult) (oa : Option Action) (e : Event)
    (h1 : handle_user_input p1 = HUIResult.ok oa)
    (he : e ≠ Event.key (KeyCode.char 'q')) :
    runIter s ⟨true :: ds2, p1 :: PollResult.ev e :: ins, cs⟩
      = (IterOut.next (dispatchOpt s oa), ⟨ds2, ins, cs⟩,
         [Obs.readCount s.count, Obs.rendered s.count, Obs.polled1 p1]
           ++ dispObs oa ++ [Obs.polled2 (PollResult.ev e)]) := by
  have hq : quit_check (PollResult.ev e) = QuitResult.cont := by
    rcases e with k | _
    · simp only [quit_check]
      rw [if_neg]
      intro hk
      exact he (by rw [hk])
    · rfl
  rw [runIter_eq_ok s ⟨true :: ds2, p1 :: PollResult.ev e :: ins, cs⟩ oa rfl h1]
  simp only [List.tail_cons, List.headD_cons]
  rw [hq]

/-- C8 witness: an Up press consumed by the quit-check phase of a
concrete iteration is dropped — no dispatch, counter unchanged, loop
continues. -/
theorem quit_phase_drops_events_witness :
    runIter Store.new
      ⟨[true], [PollResult.noEvent, PollResult.ev (Event.key KeyCode.up)], []⟩
      = (IterOut.next Store.new, ⟨[], [], []⟩,
         [Obs.readCount 0, Obs.rendered 0, Obs.polled1 PollResult.noEvent,
          Obs.polled2 (PollResult.ev (Event.key KeyCode.up))]) :=
  quit_phase_drops_events Store.new [] [] [] PollResult.noEvent none
    (Event.key KeyCode.up) rfl (by decide)

/-- C9: `handle_user_input` returns no action for the key `q`, just as
for a non-key event, so a `q` consumed during the first polling phase
produces no dispatch and leaves the iteration outcome `next` (it does
not by itself exit the loop in that phase). -/
theorem handle_q_no_action :
    handle_user_input (PollResult.ev (Event.key (KeyCode.char 'q'))) = HUIResult.ok none
    ∧ handle_user_input (PollResult.ev Event.notKey) = HUIResult.ok none
    ∧ ∀ (s : Store) (ds2 : List Bool) (ins : List PollResult) (cs : List Bool),
        (runIter s ⟨true :: ds2,
          PollResult.ev (Event.key (KeyCode.char 'q')) :: PollResult.noEvent :: ins, cs⟩).1
          = IterOut.next s := by
  have hq1 : handle_user_input (PollResult.ev (Event.key (KeyCode.char 'q')))
      = HUIResult.ok none := by decide
  refine ⟨hq1, rfl, ?_⟩
  intro s ds2 ins cs
  rw [runIter_eq_ok s
    ⟨true :: ds2, PollResult.ev (Event.key (KeyCode.char 'q')) :: PollResult.noEvent :: ins, cs⟩
    none rfl hq1]
  rfl

end Dig3
